import Mathlib

/-!
Verification of the two operations of the repository:
`getTweets` (src/app/tweets/queries/getTweets.ts) and the twitter API
route `handler` (src/app/api/twitter.ts), shallowly embedded in Lean.

External collaborators (the persistence layer, the identifier parser and
the outbound fetches) are abstract function parameters; the framework
helpers `paginate` and `resolver.pipe`/`resolver.authorize`, which are
imported from the framework and whose code is not in the repository, are
modelled from the spec where noted.
-/

namespace Spec2Proof

/-! ## TweetLookupProxy: src/app/api/twitter.ts -/

/-- The possible shapes of `req.query.url` when it is present: a single
string, or a list of strings when the query parameter is repeated. -/
inductive QueryVal where
  | str (s : String)
  | arr (ss : List String)
deriving DecidableEq, Repr

/-- The normalization expression in `handler`
(src/app/api/twitter.ts lines 7-11):
`req.query.url === undefined ? "" : typeof req.query.url !== "string" ?
req.query.url[0] : req.query.url`.
The result is the value handed to `tweetIdParser`; `none` models the
JavaScript value `undefined` (which `url[0]` produces on an empty array). -/
def normalizeUrlParam : Option QueryVal → Option String
  | none => some ""
  | some (QueryVal.str s) => some s
  | some (QueryVal.arr ss) => ss.get? 0

/-- A JavaScript value as seen by the handler after `response.json()`:
`undef` models `undefined`. -/
inductive JsVal where
  | undef
  | null
  | bool (b : Bool)
  | num (n : Int)
  | str (s : String)
  | arr (xs : List JsVal)
  | obj (fields : List (String × JsVal))
deriving Repr

/-- JavaScript property access `v.k`: on an object it yields the field's
value, or `undefined` when the field is absent; on `undefined` or `null`
it throws a TypeError (modelled as `none`); on any other value it yields
`undefined` (ignoring built-in properties, which the handler never hits). -/
def JsVal.getField : JsVal → String → Option JsVal
  | JsVal.obj fs, k => some (((fs.find? (fun p => p.1 == k)).map Prod.snd).getD JsVal.undef)
  | JsVal.undef, _ => none
  | JsVal.null, _ => none
  | _, _ => some JsVal.undef

/-- JavaScript indexing `v[0]` as used on the `data` field: the first
element of an array (or `undefined` when empty), a TypeError (`none`) on
`undefined`/`null`, the first character of a string, `undefined` otherwise. -/
def JsVal.index0 : JsVal → Option JsVal
  | JsVal.arr xs => some ((xs.get? 0).getD JsVal.undef)
  | JsVal.undef => none
  | JsVal.null => none
  | JsVal.str s => some (if s.isEmpty then JsVal.undef else JsVal.str (s.take 1))
  | _ => some JsVal.undef

/-- The API route `handler` of src/app/api/twitter.ts.
`parse` is the external `tweetIdParser` collaborator (it receives the
normalized url value, possibly `undefined`, and returns an identifier or
fails); `fetchTweet` maps the `ids` query value of the tweet-lookup call
to the parsed JSON body of its response; `fetchUser` maps the
path-embedded `tweet.author_id` value of the user-lookup call to the
parsed JSON body of its response.  The result is the object passed to
`JSON.stringify` in `res.end`, or `none` when the handler throws. -/
def handler (urlParam : Option QueryVal) (parse : Option String → Option String)
    (fetchTweet : String → JsVal) (fetchUser : JsVal → JsVal) : Option JsVal := do
  let id ← parse (normalizeUrlParam urlParam)
  let tweetBody := fetchTweet id
  let data ← tweetBody.getField "data"
  let tweet ← data.index0
  let author_id ← tweet.getField "author_id"
  let userBody := fetchUser author_id
  let user ← userBody.getField "data"
  let text ← tweet.getField "text"
  let created_at ← tweet.getField "created_at"
  let public_metrics ← tweet.getField "public_metrics"
  pure (JsVal.obj [("id", JsVal.str id), ("user", user), ("text", text),
    ("created_at", created_at), ("public_metrics", public_metrics)])

/-! ## PaginatedTweetLister: src/app/tweets/queries/getTweets.ts -/

/-- The pagination cursor `{skip, take}` of the next page. -/
structure NextPage where
  skip : Nat
  take : Nat
deriving DecidableEq, Repr

/-- The record produced by the framework `paginate` helper. -/
structure PaginateResult (T : Type) where
  items : List T
  hasMore : Bool
  nextPage : Option NextPage
  count : Nat
deriving DecidableEq, Repr

/-- Modelled from the spec: the framework `paginate` helper imported in
src/app/tweets/queries/getTweets.ts, whose code is not in the repository.
Per the spec's algorithm: obtain `totalCount` from the count collaborator,
obtain `items` from the query collaborator at the given `skip`/`take`,
compute `hasMore = skip + items.length < totalCount` and
`nextPage = hasMore ? {skip: skip + take, take} : null`. -/
def paginate {T : Type} (skip take : Nat) (count : Unit → Nat)
    (query : Nat → Nat → List T) : PaginateResult T :=
  let totalCount := count ()
  let items := query skip take
  let hasMore := decide (skip + items.length < totalCount)
  { items := items
    hasMore := hasMore
    nextPage := if hasMore then some ⟨skip + take, take⟩ else none
    count := totalCount }

/-- The input of `getTweets`: `Pick<Prisma.TweetFindManyArgs, "where" |
"orderBy" | "skip" | "take">`.  All four properties are optional; `W` and
`O` are the opaque `where` and `orderBy` criteria (the field `whereClause`
embeds `where`, a reserved word in Lean). -/
structure GetTweetsInput (W O : Type) where
  whereClause : Option W
  orderBy : Option O
  skip : Option Nat
  take : Option Nat

/-- The page returned by `getTweets`. -/
structure TweetPage (T : Type) where
  tweets : List T
  nextPage : Option NextPage
  hasMore : Bool
  count : Nat
deriving DecidableEq, Repr

/-- The handler body of `getTweets` (src/app/tweets/queries/getTweets.ts
lines 9-29): destructure the input with defaults `skip = 0`, `take = 100`,
call `paginate` with `count: () => db.tweet.count({where})` and
`query: (paginateArgs) => db.tweet.findMany({...paginateArgs, where,
orderBy})`, and return `{tweets, nextPage, hasMore, count}`.  The
persistence collaborator is abstract: `dbCount` embeds `db.tweet.count`
and `dbFindMany` embeds `db.tweet.findMany` (arguments: where, orderBy,
skip, take). -/
def getTweets {W O T : Type} (dbCount : Option W → Nat)
    (dbFindMany : Option W → Option O → Nat → Nat → List T)
    (input : GetTweetsInput W O) : TweetPage T :=
  let skip := input.skip.getD 0
  let take := input.take.getD 100
  let r := paginate skip take (fun _ => dbCount input.whereClause)
    (fun s t => dbFindMany input.whereClause input.orderBy s t)
  { tweets := r.items
    nextPage := r.nextPage
    hasMore := r.hasMore
    count := r.count }

/-- A persistence operation, recorded to observe whether and in which
order the resolver touches the persistence collaborator. -/
inductive DbOp (W O : Type) where
  | countOp (w : Option W)
  | findManyOp (w : Option W) (o : Option O) (skip : Nat) (take : Nat)

/-- `getTweets` together with the trace of persistence operations it
performs: `paginate` first invokes the count collaborator, then the query
collaborator. -/
def getTweetsTraced {W O T : Type} (dbCount : Option W → Nat)
    (dbFindMany : Option W → Option O → Nat → Nat → List T)
    (input : GetTweetsInput W O) : TweetPage T × List (DbOp W O) :=
  let skip := input.skip.getD 0
  let take := input.take.getD 100
  (getTweets dbCount dbFindMany input,
    [DbOp.countOp input.whereClause,
     DbOp.findManyOp input.whereClause input.orderBy skip take])

/-- The outcome of a resolver invocation: rejected by the authorization
gate, or the handler's result. -/
inductive ResolverOutcome (R : Type) where
  | unauthorized
  | ok (r : R)

/-- Modelled from the spec: the framework composition
`resolver.pipe(resolver.authorize(), handler)` used by getTweets.ts, whose
code is not in the repository.  Per the spec, the authorization gate runs
before the handler and rejects unauthorized callers as a distinct
"unauthorized" condition before any persistence access occurs; otherwise
the handler runs.  `S` is the opaque caller session judged by the gate. -/
def getTweetsResolver {S W O T : Type} (authorize : S → Bool)
    (dbCount : Option W → Nat)
    (dbFindMany : Option W → Option O → Nat → Nat → List T)
    (sess : S) (input : GetTweetsInput W O) :
    ResolverOutcome (TweetPage T) × List (DbOp W O) :=
  if authorize sess then
    let (page, ops) := getTweetsTraced dbCount dbFindMany input
    (ResolverOutcome.ok page, ops)
  else
    (ResolverOutcome.unauthorized, [])

/-! ## Theorems -/

/-- C1: for every invocation of getTweets with parameters skip and take,
where the persistence collaborator reports the count and returns the list
items, the returned page has hasMore equal to
(skip + items.length < totalCount). -/
theorem getTweets_hasMore_spec {W O T : Type} (dbCount : Option W → Nat)
    (dbFindMany : Option W → Option O → Nat → Nat → List T)
    (w : Option W) (o : Option O) (skip take : Nat) :
    (getTweets dbCount dbFindMany ⟨w, o, some skip, some take⟩).hasMore
      = decide (skip + (dbFindMany w o skip take).length < dbCount w) := rfl

/-- C3: the returned page's nextPage equals {skip: skip + take, take}
when hasMore is true, and null when hasMore is false. -/
theorem getTweets_nextPage_spec {W O T : Type} (dbCount : Option W → Nat)
    (dbFindMany : Option W → Option O → Nat → Nat → List T)
    (input : GetTweetsInput W O) :
    (getTweets dbCount dbFindMany input).nextPage
      = if (getTweets dbCount dbFindMany input).hasMore
          then some ⟨input.skip.getD 0 + input.take.getD 100, input.take.getD 100⟩
          else none := rfl

/-- C5: under monotonic count semantics (the find result is the slice of
the totalCount matching records starting at skip with at most take
elements, so its length is min take (totalCount - skip)), if the find
operation returns strictly fewer than take items then hasMore is false. -/
theorem getTweets_fewer_than_take_no_more {W O T : Type}
    (dbCount : Option W → Nat)
    (dbFindMany : Option W → Option O → Nat → Nat → List T)
    (w : Option W) (o : Option O) (skip take : Nat)
    (hslice : (dbFindMany w o skip take).length = min take (dbCount w - skip))
    (hfewer : (dbFindMany w o skip take).length < take) :
    (getTweets dbCount dbFindMany ⟨w, o, some skip, some take⟩).hasMore
      = false := by
  have h : ¬ (skip + (dbFindMany w o skip take).length < dbCount w) := by
    omega
  simp [getTweets, paginate, h]

/-- Witness for C5: a collaborator with 5 matching records returning all
5 of them for skip 0, take 100 yields hasMore = false. -/
theorem getTweets_fewer_than_take_no_more_witness :
    (getTweets (fun (_ : Option Unit) => 5)
      (fun (_ : Option Unit) (_ : Option Unit) (_ _ : Nat) => [0, 1, 2, 3, 4])
      ⟨none, none, some 0, some 100⟩).hasMore = false :=
  getTweets_fewer_than_take_no_more
    (fun (_ : Option Unit) => 5)
    (fun (_ : Option Unit) (_ : Option Unit) (_ _ : Nat) => [0, 1, 2, 3, 4])
    none none 0 100 (by decide) (by decide)

/-- C6: the count field of the returned page equals the persistence
collaborator's count for the given where filter, and any two invocations
that differ only in skip and take return the same count. -/
theorem getTweets_count_spec {W O T : Type} (dbCount : Option W → Nat)
    (dbFindMany : Option W → Option O → Nat → Nat → List T)
    (i1 i2 : GetTweetsInput W O)
    (hw : i1.whereClause = i2.whereClause) (ho : i1.orderBy = i2.orderBy) :
    (getTweets dbCount dbFindMany i1).count = dbCount i1.whereClause ∧
    (getTweets dbCount dbFindMany i1).count
      = (getTweets dbCount dbFindMany i2).count := by
  refine ⟨rfl, ?_⟩
  simp [getTweets, paginate, hw]

/-- Witness for C6: two invocations sharing filter and ordering but with
different skip and take both report the collaborator's count, 7. -/
theorem getTweets_count_spec_witness :
    (getTweets (fun (_ : Option Nat) => 7)
        (fun (_ : Option Nat) (_ : Option Nat) (_ _ : Nat) => ([] : List Nat))
        ⟨some 1, some 2, some 0, some 10⟩).count = (fun (_ : Option Nat) => 7) (some 1) ∧
    (getTweets (fun (_ : Option Nat) => 7)
        (fun (_ : Option Nat) (_ : Option Nat) (_ _ : Nat) => ([] : List Nat))
        ⟨some 1, some 2, some 0, some 10⟩).count
      = (getTweets (fun (_ : Option Nat) => 7)
          (fun (_ : Option Nat) (_ : Option Nat) (_ _ : Nat) => ([] : List Nat))
          ⟨some 1, some 2, some 5, some 20⟩).count :=
  getTweets_count_spec (fun (_ : Option Nat) => 7)
    (fun (_ : Option Nat) (_ : Option Nat) (_ _ : Nat) => ([] : List Nat))
    ⟨some 1, some 2, some 0, some 10⟩ ⟨some 1, some 2, some 5, some 20⟩
    rfl rfl

/-- C7: invoking getTweets with skip and take omitted returns the same
page as invoking it with skip = 0 and take = 100, against the same
persistence collaborator. -/
theorem getTweets_default_params {W O T : Type} (dbCount : Option W → Nat)
    (dbFindMany : Option W → Option O → Nat → Nat → List T)
    (w : Option W) (o : Option O) :
    getTweets dbCount dbFindMany ⟨w, o, none, none⟩
      = getTweets dbCount dbFindMany ⟨w, o, some 0, some 100⟩ := rfl

/-- C4: when the authorization gate rejects the caller, the resolver
fails with the distinct unauthorized outcome and performs no persistence
operation at all. -/
theorem getTweetsResolver_unauthorized {S W O T : Type}
    (authorize : S → Bool) (dbCount : Option W → Nat)
    (dbFindMany : Option W → Option O → Nat → Nat → List T)
    (sess : S) (input : GetTweetsInput W O)
    (h : authorize sess = false) :
    getTweetsResolver authorize dbCount dbFindMany sess input
      = (ResolverOutcome.unauthorized, ([] : List (DbOp W O))) := by
  simp [getTweetsResolver, h]

/-- Witness for C4: a gate that rejects every caller yields the
unauthorized outcome and the empty persistence trace. -/
theorem getTweetsResolver_unauthorized_witness :
    getTweetsResolver (fun (_ : Unit) => false) (fun (_ : Option Unit) => 0)
      (fun (_ : Option Unit) (_ : Option Unit) (_ _ : Nat) => ([] : List Nat))
      () ⟨none, none, none, none⟩
      = (ResolverOutcome.unauthorized, ([] : List (DbOp Unit Unit))) :=
  getTweetsResolver_unauthorized (fun (_ : Unit) => false)
    (fun (_ : Option Unit) => 0)
    (fun (_ : Option Unit) (_ : Option Unit) (_ _ : Nat) => ([] : List Nat))
    () ⟨none, none, none, none⟩ rfl

/-- C2: when the tweet-lookup body's data array has a first element
tweet, and the user-lookup body for tweet.author_id has field data =
user, the object the handler emits is exactly {id: the parsed identifier,
user, text: tweet.text, created_at: tweet.created_at, public_metrics:
tweet.public_metrics}. -/
theorem handler_response_shape (urlParam : Option QueryVal)
    (parse : Option String → Option String)
    (fetchTweet : String → JsVal) (fetchUser : JsVal → JsVal)
    (id : String) (tweet : JsVal) (rest : List JsVal)
    (aid user text created_at public_metrics : JsVal)
    (hid : parse (normalizeUrlParam urlParam) = some id)
    (hdata : (fetchTweet id).getField "data" = some (JsVal.arr (tweet :: rest)))
    (haid : tweet.getField "author_id" = some aid)
    (huser : (fetchUser aid).getField "data" = some user)
    (htext : tweet.getField "text" = some text)
    (hcreated : tweet.getField "created_at" = some created_at)
    (hpm : tweet.getField "public_metrics" = some public_metrics) :
    handler urlParam parse fetchTweet fetchUser
      = some (JsVal.obj [("id", JsVal.str id), ("user", user),
          ("text", text), ("created_at", created_at),
          ("public_metrics", public_metrics)]) := by
  simp [handler, hid, hdata, haid, huser, htext, hcreated, hpm, JsVal.index0]

/-- Witness for C2: the spec's end-to-end example, with the parser
returning the identifier 123. -/
theorem handler_response_shape_witness :
    handler (some (QueryVal.str "https://x")) (fun _ => some "123")
      (fun _ => JsVal.obj [("data", JsVal.arr [JsVal.obj
        [("author_id", JsVal.str "A1"), ("text", JsVal.str "T1"),
         ("created_at", JsVal.str "2020-01-01T00:00:00Z"),
         ("public_metrics", JsVal.obj [("like_count", JsVal.num 3)])]])])
      (fun _ => JsVal.obj [("data", JsVal.obj
        [("profile_image_url", JsVal.str "http://img")])])
      = some (JsVal.obj [("id", JsVal.str "123"),
          ("user", JsVal.obj [("profile_image_url", JsVal.str "http://img")]),
          ("text", JsVal.str "T1"),
          ("created_at", JsVal.str "2020-01-01T00:00:00Z"),
          ("public_metrics", JsVal.obj [("like_count", JsVal.num 3)])]) :=
  handler_response_shape (some (QueryVal.str "https://x"))
    (fun _ => some "123")
    (fun _ => JsVal.obj [("data", JsVal.arr [JsVal.obj
      [("author_id", JsVal.str "A1"), ("text", JsVal.str "T1"),
       ("created_at", JsVal.str "2020-01-01T00:00:00Z"),
       ("public_metrics", JsVal.obj [("like_count", JsVal.num 3)])]])])
    (fun _ => JsVal.obj [("data", JsVal.obj
      [("profile_image_url", JsVal.str "http://img")])])
    "123"
    (JsVal.obj [("author_id", JsVal.str "A1"), ("text", JsVal.str "T1"),
      ("created_at", JsVal.str "2020-01-01T00:00:00Z"),
      ("public_metrics", JsVal.obj [("like_count", JsVal.num 3)])])
    [] (JsVal.str "A1")
    (JsVal.obj [("profile_image_url", JsVal.str "http://img")])
    (JsVal.str "T1") (JsVal.str "2020-01-01T00:00:00Z")
    (JsVal.obj [("like_count", JsVal.num 3)])
    rfl rfl rfl rfl rfl rfl rfl

/-- C8: when the url query parameter is absent, the value handed to the
identifier-parsing collaborator is the empty string. -/
theorem normalizeUrlParam_absent : normalizeUrlParam none = some "" := rfl

/-- C9: when the url query parameter is a sequence of strings, the value
handed to the identifier-parsing collaborator is its first element. -/
theorem normalizeUrlParam_repeated (s : String) (rest : List String) :
    normalizeUrlParam (some (QueryVal.arr (s :: rest))) = some s := rfl

/-- C10: when the url query parameter is an empty sequence of strings,
the identifier-parsing collaborator receives no string at all (indexing
the empty sequence yields none), which differs from the absent-parameter
case, where it receives the empty string. -/
theorem normalizeUrlParam_empty_seq :
    normalizeUrlParam (some (QueryVal.arr [])) = none ∧
    normalizeUrlParam (some (QueryVal.arr [])) ≠ normalizeUrlParam none := by
  exact ⟨rfl, by decide⟩

end Spec2Proof
